import Mathlib

/-!
Verification development for the conversation-context assembly and
incremental-delivery protocol of the ai-chatbot-demo-kit repository.

The definitions below are a shallow embedding of:
  - `AIService.buildContext`, `AIService.getPageContextPrompt`,
    `AIService.streamChatCompletion`, `AIService.mockStreamResponse`
    (src/unnamed/part_001, the aiService module);
  - the `GET /stream/:messageId` handler of `createChatRoutes`
    (src/server/routes/chatRoutes.ts);
  - the in-memory storage's `getRecentMessages` (src/unnamed/part_002),
    which slices the last `limit` stored messages, oldest first.

Collaborator effects (storage reads, the retrieval service, the OpenAI
backend stream) are passed in as explicit data: a collaborator that can
throw is modelled with `Except` / an explicit failure constructor, and the
backend's asynchronous fragment stream is modelled as the list of `delta`
content strings it produces (with an explicit failure point for a stream
that throws after a prefix of fragments).  JavaScript string truthiness
(`""` is falsy) is modelled by `truthyStr`.
-/

namespace AIChat

/-- Role tag of a chat completion message: `system`, `user` or `assistant`. -/
inductive Role where
  | system
  | user
  | assistant
deriving DecidableEq, Repr

/-- One prompt segment (`ChatCompletionMessage` in aiService). -/
structure ChatMessage where
  role : Role
  content : String
deriving DecidableEq, Repr

/-- A stored message as returned by `storage.getRecentMessages`: the role is
an arbitrary string (the store is not trusted to only hold valid roles). -/
structure StoredMessage where
  role : String
  content : String
deriving DecidableEq, Repr

/-- A stored message as returned by `storage.getMessage(id)`. -/
structure MessageRecord where
  id : String
  conversationId : String
  role : String
  content : String
deriving DecidableEq, Repr

/-- JavaScript truthiness for an optional string: `undefined` and `""` are
falsy, any other string is truthy (and is the value of the expression). -/
def truthyStr : Option String → Option String
  | some s => if s = "" then none else some s
  | none => none

/-- JavaScript `a || b` on optional strings: the first truthy value. -/
def jsOr (a b : Option String) : Option String :=
  match truthyStr a with
  | some s => some s
  | none => truthyStr b

/-- The `PageContext` object of aiService.  The recognized keys are
structure fields; every other key/value pair of the JavaScript object is
carried in `extras`, with the value already JSON-serialized (the embedding
of `JSON.stringify(pageContext[key])`). -/
structure PageContext where
  currentPage : Option String := none
  page : Option String := none
  route : Option String := none
  userRole : Option String := none
  recentActions : Option (List String) := none
  navigationHistory : Option (List String) := none
  timestamp : Option String := none
  extras : List (String × String) := []
deriving DecidableEq, Repr

/-- Embedding of `Object.keys(pageContext).length > 0`: false exactly when no key is
present at all (a key present with an empty value still counts). -/
def PageContext.isEmpty (pc : PageContext) : Bool :=
  pc.currentPage.isNone && pc.page.isNone && pc.route.isNone &&
  pc.userRole.isNone && pc.recentActions.isNone &&
  pc.navigationHistory.isNone && pc.timestamp.isNone && pc.extras.isEmpty

/-- The key names excluded from the generic `key: JSON(value)` loop in
`getPageContextPrompt` (its hard-coded exclusion list). -/
def recognizedKeys : List String :=
  ["currentPage", "page", "route", "userRole", "navigationHistory",
   "recentActions", "timestamp"]

/-- The lines appended to `contextText` by `AIService.getPageContextPrompt`,
in order, each line carrying its trailing newline.  The page line uses the
JavaScript coalescing `currentPage || page || route`; the recent-pages
separator is the literal three-character sequence found in the source. -/
def pageContextLines (pc : PageContext) : List String :=
  (match jsOr (jsOr pc.currentPage pc.page) pc.route with
   | some p => ["- Page: " ++ p ++ "\n"]
   | none => []) ++
  (match truthyStr pc.userRole with
   | some r => ["- User Role: " ++ r ++ "\n"]
   | none => []) ++
  (match pc.navigationHistory with
   | some h =>
     if 0 < h.length then
       ["- Recent Pages: " ++ String.intercalate " â†’ " h ++ "\n"]
     else []
   | none => []) ++
  (match pc.recentActions with
   | some acts =>
     if 0 < acts.length then
       "- Recent Actions:\n" :: acts.map (fun a => "  * " ++ a ++ "\n")
     else []
   | none => []) ++
  (pc.extras.filter (fun kv => !(recognizedKeys.contains kv.1))).map
    (fun kv => "- " ++ kv.1 ++ ": " ++ kv.2 ++ "\n")

/-- Embedding of `AIService.getPageContextPrompt`: fixed header, the rendered lines,
fixed footer. -/
def getPageContextPrompt (pc : PageContext) : String :=
  "Current Context:\n" ++ String.join (pageContextLines pc) ++
  "\nBased on this context, provide relevant and specific assistance."

/-- The `DEFAULT_SYSTEM_PROMPT` constant of aiService. -/
def DEFAULT_SYSTEM_PROMPT : String :=
  "You are a helpful AI assistant. You provide clear, accurate, and helpful responses to user questions.\n\n## Communication Style:\n- Professional but approachable\n- Action-oriented with practical guidance\n- Clear and concise explanations\n- Use bullet points for clarity when appropriate\n\n## Response Format:\n1. Brief summary answering the question\n2. Detailed explanation or steps\n3. Additional context or examples if helpful\n\nWhen uncertain:\n- Admit knowledge gaps honestly\n- Offer alternatives or related information\n- Never guess or make up information\n"

/-- One retrieval result from `ragService.retrieveRelevantDocuments`. -/
structure RetrievalDoc where
  title : String
  content : String
  relevanceScore : Rat
  type : Option String := none
  href : Option String := none
deriving DecidableEq, Repr

/-- One citation pushed onto `sources` in `buildContext`. -/
structure Citation where
  type : String
  title : String
  href : Option String
  relevance : Rat
deriving DecidableEq, Repr

/-- Rendering of `(doc.relevanceScore * 100).toFixed(0)`. -/
def relevancePct (r : Rat) : String :=
  toString (round (r * 100))

/-- The text appended for one retrieved document inside the RAG segment. -/
def ragDocText (doc : RetrievalDoc) : String :=
  "### " ++ doc.title ++ "\n" ++ doc.content ++ "\n" ++
  "*(Relevance: " ++ relevancePct doc.relevanceScore ++ "%)*\n\n"

/-- The full content of the RAG system segment built in `buildContext`. -/
def ragContextText (docs : List RetrievalDoc) : String :=
  "**Relevant Information from Knowledge Base:**\n\n" ++
  String.join (docs.map ragDocText) ++
  "\nUse this information to provide accurate guidance. Cite sources when relevant."

/-- The citation record pushed for one retrieved document
(`type: doc.type || 'knowledge-base'`). -/
def mkCitation (doc : RetrievalDoc) : Citation :=
  { type := (truthyStr doc.type).getD "knowledge-base"
    title := doc.title
    href := doc.href
    relevance := doc.relevanceScore }

/-- The in-memory storage's `getRecentMessages(conversationId, limit)`
(src/unnamed/part_002): `msgs.slice(-limit)`, the last `limit` messages
oldest first (`slice(-0)` returns the whole array). -/
def getRecentMessages (msgs : List StoredMessage) (limit : Nat) :
    List StoredMessage :=
  if limit = 0 then msgs else msgs.drop (msgs.length - limit)

/-- The configuration and collaborator data `buildContext` reads:
the effective system prompt, the RAG toggle and collaborator presence, the
outcome of `ragService.retrieveRelevantDocuments(userMessage, 3, 0.6)`
(`Except.error` models the collaborator throwing), and the conversation's
stored messages when a `conversationHistory` collaborator is wired
(`none` models a null collaborator). -/
structure BuildContextEnv where
  systemPrompt : String
  enableRAG : Bool
  hasRagService : Bool
  ragResult : Except Unit (List RetrievalDoc)
  history : Option (List StoredMessage)
deriving Repr

/-- One history message's contribution: its own role when it is `user` or
`assistant`, skipped otherwise. -/
def roleSegment (m : StoredMessage) : Option ChatMessage :=
  if m.role = "user" then some { role := Role.user, content := m.content }
  else if m.role = "assistant" then
    some { role := Role.assistant, content := m.content }
  else none

/-- The history segments appended in step 4 of `buildContext`: the last 10
stored messages, each converted by `roleSegment`. -/
def historySegs (msgs : List StoredMessage) : List ChatMessage :=
  (getRecentMessages msgs 10).filterMap roleSegment

/-- Step 2 of `buildContext`: one extra system segment when the page
context is present and has at least one key. -/
def pageContextSegs (pageContext : Option PageContext) : List ChatMessage :=
  match pageContext with
  | some pc =>
    if pc.isEmpty then []
    else [{ role := Role.system, content := getPageContextPrompt pc }]
  | none => []

/-- Step 3 of `buildContext`: the RAG segment and the citation list.  The
retrieval collaborator is called only when the user message is truthy and
RAG is enabled and a collaborator is configured; a throwing collaborator
(`Except.error`) is swallowed, leaving no segment and no citations. -/
def ragSegsAndSources (env : BuildContextEnv) (userMessage : String) :
    List ChatMessage × List Citation :=
  if userMessage != "" && env.enableRAG && env.hasRagService then
    match env.ragResult with
    | Except.ok docs =>
      if 0 < docs.length then
        ([{ role := Role.system, content := ragContextText docs }],
         docs.map mkCitation)
      else ([], [])
    | Except.error _ => ([], [])
  else ([], [])

/-- Step 4 of `buildContext`: the history segments when a
`conversationHistory` collaborator is wired, nothing otherwise. -/
def historyOf : Option (List StoredMessage) → List ChatMessage
  | some msgs => historySegs msgs
  | none => []

/-- Step 5 of `buildContext`: the final user segment, appended only when
the current user message is truthy. -/
def userSegsOf (userMessage : String) : List ChatMessage :=
  if userMessage != "" then [{ role := Role.user, content := userMessage }]
  else []

/-- Embedding of `AIService.buildContext`: system prompt, optional page-context segment,
optional RAG segment, history window, current user turn; paired with the
citation list hung on the result as `ragSources`. -/
def buildContext (env : BuildContextEnv) (pageContext : Option PageContext)
    (userMessage : String) : List ChatMessage × List Citation :=
  ({ role := Role.system, content := env.systemPrompt } ::
     (pageContextSegs pageContext ++ (ragSegsAndSources env userMessage).1 ++
      historyOf env.history ++ userSegsOf userMessage),
   (ragSegsAndSources env userMessage).2)

/-- A backend-reported failure (`error.status`, `error.code`,
`error.message`, each possibly absent). -/
structure BackendError where
  status : Option Int := none
  code : Option String := none
  message : Option String := none
deriving DecidableEq, Repr

/-- The error-normalization chain in the catch of `streamChatCompletion`:
429, then 401, then any status of at least 500, then `insufficient_quota`,
then the two timeout codes, else the catch-all message wrapping
`error.message || 'Unknown error'`. -/
def normalizeError (e : BackendError) : String :=
  if e.status == some 429 then
    "I\x27m receiving too many requests right now. Please wait a moment and try again."
  else if e.status == some 401 then
    "API authentication failed. Please contact your administrator."
  else if (match e.status with | some s => decide (500 ≤ s) | none => false) then
    "The AI service is temporarily unavailable. Please try again in a few moments."
  else if e.code == some "insufficient_quota" then
    "API usage limit reached. Please contact your administrator."
  else if e.code == some "ETIMEDOUT" || e.code == some "ECONNABORTED" then
    "Request timed out. Please check your connection and try again."
  else
    "Unable to process your request: " ++ (truthyStr e.message).getD "Unknown error" ++
    ". Please try again."

/-- The fixed apology chunk yielded when the backend stream ends without
ever producing a non-empty fragment. -/
def fallbackMessage : String :=
  "I apologize, but I was unable to generate a response. Please try rephrasing your question."

/-- The `mockResponses` array of `AIService.mockStreamResponse`, yielded in
order when no backend is configured. -/
def mockResponses : List String :=
  ["I understand your question. ",
   "Based on the current context, ",
   "I can help you with that. ",
   "\n\nHere are some key points:\n",
   "1. This is a mock response for demonstration\n",
   "2. Configure OpenAI API key for real responses\n",
   "3. I\x27m ready to help once configured\n\n",
   "Would you like more information?"]

/-- One value yielded by the `streamChatCompletion` generator: a plain
content string or the trailing sources object. -/
inductive StreamYield where
  | content (text : String)
  | sources (sources : List Citation)
deriving DecidableEq, Repr

/-- Behaviour of the OpenAI streaming call: either the stream completes
after producing the given `delta` content strings (some possibly empty), or
it fails after producing a prefix of them, carrying a backend error
(`failure [] e` also covers the create call itself throwing). -/
inductive BackendOutcome where
  | success (fragments : List String)
  | failure (producedBefore : List String) (err : BackendError)
deriving DecidableEq, Repr

/-- The observable run of the `streamChatCompletion` generator: the values
it yields in order, and the normalized error message it throws afterwards,
if any. -/
structure AdapterRun where
  yields : List StreamYield
  thrown : Option String
deriving DecidableEq, Repr

/-- Embedding of `AIService.streamChatCompletion`: in unconfigured mode it delegates to
`mockStreamResponse` and returns; otherwise it builds the context, yields
every non-empty backend fragment, falls back to the fixed apology when no
fragment was non-empty, then yields one sources object when the context
produced citations; a backend failure ends the run with one normalized
thrown message. -/
def streamChatCompletion (isConfigured : Bool) (env : BuildContextEnv)
    (pageContext : Option PageContext) (userMessage : String)
    (backend : BackendOutcome) : AdapterRun :=
  if !isConfigured then
    { yields := mockResponses.map StreamYield.content, thrown := none }
  else
    let ragSources := (buildContext env pageContext userMessage).2
    match backend with
    | BackendOutcome.success frags =>
      let produced := frags.filter (fun f => f != "")
      let contents := if produced.isEmpty then [fallbackMessage] else produced
      { yields := contents.map StreamYield.content ++
          (if 0 < ragSources.length then [StreamYield.sources ragSources] else [])
        thrown := none }
    | BackendOutcome.failure pre err =>
      { yields := (pre.filter (fun f => f != "")).map StreamYield.content
        thrown := some (normalizeError err) }

/-- One wire record written on the event channel (`data: <json>\n\n`). -/
inductive WireRecord where
  | chunk (content : String)
  | sources (sources : List Citation)
  | done
  | error (message : String)
deriving DecidableEq, Repr

/-- How the stream loop of the route encodes a yielded value. -/
def encodeYield : StreamYield → WireRecord
  | StreamYield.content s => WireRecord.chunk s
  | StreamYield.sources cs => WireRecord.sources cs

/-- Fault injection for the two storage calls the stream route performs
before opening the channel. -/
inductive RouteFault where
  | noFault
  | getMessageThrows
  | getRecentThrows
deriving DecidableEq, Repr

/-- The observable outcome of one run of `GET /stream/:messageId`: the
status of a structured (non-streamed) JSON response if one was sent, whether
the SSE headers were flushed, the wire records written in order, and whether
`res.end()` was called. -/
structure RouteResult where
  jsonStatus : Option Nat
  headersSent : Bool
  records : List WireRecord
  ended : Bool
deriving DecidableEq, Repr

/-- A structured (non-streamed) JSON rejection: the headers were never
flushed and no record was written. -/
def rejected (status : Nat) : RouteResult :=
  { jsonStatus := some status, headersSent := false, records := [], ended := false }

/-- The streaming phase of the route: every yielded value is encoded onto
the channel; adapter exhaustion appends one `done` record, an adapter throw
is caught by the inner catch and appends one `error` record; either way
`res.end()` closes the channel. -/
def streamingResult (run : AdapterRun) : RouteResult :=
  let body := run.yields.map encodeYield
  match run.thrown with
  | none =>
    { jsonStatus := none, headersSent := true
      records := body ++ [WireRecord.done], ended := true }
  | some msg =>
    { jsonStatus := none, headersSent := true
      records := body ++ [WireRecord.error msg], ended := true }

/-- The `GET /stream/:messageId` handler of `createChatRoutes`.
`messageLookup` is the result of `storage.getMessage(messageId)`;
`allMessages` is the owning conversation's stored message list, from which
the route fetches the last 10 via `getRecentMessages` and answers the most
recent `user`-role one.  A storage throw before the headers are flushed is
caught by the outer catch and answered with a structured 500; a throw from
the adapter after the headers are flushed is caught by the inner catch and
encoded as one error record before `res.end()`. -/
def handleStream (fault : RouteFault) (messageLookup : Option MessageRecord)
    (allMessages : List StoredMessage) (isConfigured : Bool)
    (env : BuildContextEnv) (pageContext : Option PageContext)
    (backend : BackendOutcome) : RouteResult :=
  if fault = RouteFault.getMessageThrows then rejected 500
  else
    match messageLookup with
    | none => rejected 404
    | some _ =>
      if fault = RouteFault.getRecentThrows then rejected 500
      else
        match (getRecentMessages allMessages 10).reverse.find?
            (fun m => m.role == "user") with
        | none => rejected 400
        | some lastUser =>
          streamingResult
            (streamChatCompletion isConfigured env pageContext
              lastUser.content backend)

/-- The route with a client-disconnect instant: the source installs no
close listener and its write loop never consults the connection state, so
the embedded run is the same function of the request data whatever the
record index at which the client disconnects. -/
def handleStreamDisconnect (disconnectAt : Nat) (fault : RouteFault)
    (messageLookup : Option MessageRecord) (allMessages : List StoredMessage)
    (isConfigured : Bool) (env : BuildContextEnv)
    (pageContext : Option PageContext) (backend : BackendOutcome) : RouteResult :=
  let _ := disconnectAt
  handleStream fault messageLookup allMessages isConfigured env pageContext backend

/-- The records whose writes are attempted on the channel after the client
has disconnected at record index `k` (the first `k` records reached the
client; the rest are written to a closed channel). -/
def writesAfterDisconnect (k : Nat) (r : RouteResult) : List WireRecord :=
  r.records.drop k

/-- Terminal wire records: `done` and `error`. -/
def isTerminalRec : WireRecord → Bool
  | WireRecord.done => true
  | WireRecord.error _ => true
  | _ => false

/-- Checker for the stream grammar `chunk* sources? (done|error)` with the
terminal record last and nothing after it. -/
def matchesGrammar : List WireRecord → Bool
  | [] => false
  | WireRecord.chunk _ :: rest => matchesGrammar rest
  | [WireRecord.sources _, t] => isTerminalRec t
  | [r] => isTerminalRec r
  | _ => false

/-- Projection of a yielded value to its content string, if it is one. -/
def contentOf : StreamYield → Option String
  | StreamYield.content s => some s
  | StreamYield.sources _ => none

/-- The content strings of an adapter run, in order. -/
def contentTexts (run : AdapterRun) : List String :=
  run.yields.filterMap contentOf

/-- Whether an adapter run yields any sources object. -/
def hasSourcesYield (run : AdapterRun) : Bool :=
  run.yields.any (fun y =>
    match y with
    | StreamYield.sources _ => true
    | _ => false)

/-- Error wire records. -/
def isErrorRec : WireRecord → Bool
  | WireRecord.error _ => true
  | _ => false

/-! Sample concrete values used by witnesses and counterexamples. -/

/-- A minimal configuration: no RAG, no history collaborator. -/
def envA : BuildContextEnv :=
  { systemPrompt := "p", enableRAG := false, hasRagService := false,
    ragResult := Except.ok [], history := none }

/-- A stored assistant placeholder message, as `getMessage` returns it. -/
def msgW : MessageRecord :=
  { id := "m1", conversationId := "c1", role := "assistant", content := "" }

/-- A one-message conversation holding a single user turn. -/
def oneUserTurn : List StoredMessage :=
  [{ role := "user", content := "hi" }]

/-! Helper lemmas. -/

/-- A nonempty list ending in `[a]` has last element `a`. -/
theorem getLast?_cons_append {α : Type} (x : α) (l : List α) (a : α) :
    (x :: (l ++ [a])).getLast? = some a := by
  rw [show x :: (l ++ [a]) = (x :: l) ++ [a] from rfl, List.getLast?_concat]

/-- Leading chunk records are transparent to the grammar checker. -/
theorem matchesGrammar_chunks (cs : List String) (rest : List WireRecord) :
    matchesGrammar (cs.map WireRecord.chunk ++ rest) = matchesGrammar rest := by
  induction cs with
  | nil => rfl
  | cons c cs ih => simpa [matchesGrammar] using ih

/-- Any list of the form `chunk* sources? terminal` satisfies the grammar. -/
theorem matchesGrammar_shape (cs : List String) (sopt : List WireRecord)
    (t : WireRecord)
    (hs : sopt = [] ∨ ∃ s, sopt = [WireRecord.sources s])
    (ht : isTerminalRec t = true) :
    matchesGrammar (cs.map WireRecord.chunk ++ (sopt ++ [t])) = true := by
  rw [matchesGrammar_chunks]
  rcases hs with rfl | ⟨s, rfl⟩
  · cases t <;> simp_all [matchesGrammar, isTerminalRec]
  · simpa [matchesGrammar] using ht

/-- Every adapter run yields a list of content strings followed by at most
one sources object. -/
theorem adapter_yields_shape (cfg : Bool) (env : BuildContextEnv)
    (pc : Option PageContext) (um : String) (backend : BackendOutcome) :
    ∃ (cs : List String) (sopt : List StreamYield),
      (streamChatCompletion cfg env pc um backend).yields =
        cs.map StreamYield.content ++ sopt ∧
      (sopt = [] ∨ ∃ s, sopt = [StreamYield.sources s]) := by
  unfold streamChatCompletion
  cases cfg with
  | false => exact ⟨mockResponses, [], by simp, Or.inl rfl⟩
  | true =>
    cases backend with
    | success frags =>
      refine ⟨if (frags.filter (fun f => f != "")).isEmpty then [fallbackMessage]
          else frags.filter (fun f => f != ""),
        if 0 < (buildContext env pc um).2.length then
          [StreamYield.sources (buildContext env pc um).2] else [], ?_, ?_⟩
      · simp
      · by_cases h : 0 < (buildContext env pc um).2.length
        · exact Or.inr ⟨(buildContext env pc um).2, by simp [h]⟩
        · exact Or.inl (by simp [h])
    | failure pre err =>
      exact ⟨pre.filter (fun f => f != ""), [], by simp, Or.inl rfl⟩

/-- The streaming phase always writes a record list matching the grammar. -/
theorem streamingResult_grammar (cfg : Bool) (env : BuildContextEnv)
    (pc : Option PageContext) (um : String) (backend : BackendOutcome) :
    matchesGrammar
      (streamingResult (streamChatCompletion cfg env pc um backend)).records =
      true := by
  obtain ⟨cs, sopt, hy, hs⟩ := adapter_yields_shape cfg env pc um backend
  have hmap : (streamChatCompletion cfg env pc um backend).yields.map encodeYield =
      cs.map WireRecord.chunk ++ sopt.map encodeYield := by
    rw [hy, List.map_append, List.map_map]
    rfl
  have hs' : sopt.map encodeYield = [] ∨
      ∃ s, sopt.map encodeYield = [WireRecord.sources s] := by
    rcases hs with rfl | ⟨s, rfl⟩
    · exact Or.inl rfl
    · exact Or.inr ⟨s, rfl⟩
  unfold streamingResult
  cases ht : (streamChatCompletion cfg env pc um backend).thrown with
  | none =>
    simpa [hmap, List.append_assoc] using
      matchesGrammar_shape cs (sopt.map encodeYield) WireRecord.done hs' rfl
  | some m =>
    simpa [hmap, List.append_assoc] using
      matchesGrammar_shape cs (sopt.map encodeYield) (WireRecord.error m) hs' rfl

/-- Claim C1: for every run of the stream endpoint in which the event
channel is opened (the SSE headers were flushed), the sequence of wire
records written matches the grammar `chunk* sources? (done|error)`, with
exactly one terminal record and no record after it. -/
theorem c1_stream_event_order (fault : RouteFault)
    (ml : Option MessageRecord) (allM : List StoredMessage) (cfg : Bool)
    (env : BuildContextEnv) (pc : Option PageContext)
    (backend : BackendOutcome)
    (h : (handleStream fault ml allM cfg env pc backend).headersSent = true) :
    matchesGrammar (handleStream fault ml allM cfg env pc backend).records =
      true := by
  cases fault with
  | getMessageThrows => simp [handleStream, rejected] at h
  | getRecentThrows =>
    cases ml with
    | none => simp [handleStream, rejected] at h
    | some m => simp +decide [handleStream, rejected] at h
  | noFault =>
    cases ml with
    | none => simp [handleStream, rejected] at h
    | some m =>
      simp only [handleStream]
      cases hf : (getRecentMessages allM 10).reverse.find?
          (fun x => x.role == "user") with
      | none =>
        simp only [handleStream, hf] at h
        simp +decide [rejected] at h
      | some lastUser =>
        simp +decide only [reduceIte, reduceCtorEq]
        exact streamingResult_grammar cfg env pc lastUser.content backend

/-- Witness for C1 at a concrete run: channel opened, grammar satisfied. -/
theorem c1_stream_event_order_witness :
    (handleStream RouteFault.noFault (some msgW) oneUserTurn false envA none
      (BackendOutcome.success [])).headersSent = true ∧
    matchesGrammar (handleStream RouteFault.noFault (some msgW) oneUserTurn
      false envA none (BackendOutcome.success [])).records = true :=
  ⟨rfl, c1_stream_event_order RouteFault.noFault (some msgW) oneUserTurn false
    envA none (BackendOutcome.success []) rfl⟩

/-- Counterexample for C2 as stated: with an empty current user message
(JavaScript-falsy), `buildContext` appends no user segment, so the last
element of the prompt is the persona system segment, not a user segment. -/
theorem c2_counterexample :
    (buildContext envA none "").1 = [{ role := Role.system, content := "p" }] ∧
    ((buildContext envA none "").1.getLast?).map ChatMessage.role ≠
      some Role.user := by
  constructor
  · rfl
  · decide

/-- Claim C2 (amended): for every configuration, page context and
NON-EMPTY current user message, the prompt returned by `buildContext`
starts with the persona system segment and ends with a user segment
holding the current user message, including when history and page context
are empty. -/
theorem c2_persona_first_user_last (env : BuildContextEnv)
    (pc : Option PageContext) (um : String) (h : um ≠ "") :
    (buildContext env pc um).1.head? =
      some { role := Role.system, content := env.systemPrompt } ∧
    (buildContext env pc um).1.getLast? =
      some { role := Role.user, content := um } := by
  have hb : (um != "") = true := bne_iff_ne.mpr h
  constructor
  · rfl
  · show (({ role := Role.system, content := env.systemPrompt } : ChatMessage) ::
      (pageContextSegs pc ++ (ragSegsAndSources env um).1 ++
       historyOf env.history ++ userSegsOf um)).getLast? = _
    rw [show userSegsOf um = [{ role := Role.user, content := um }] from by
      simp [userSegsOf, hb]]
    exact getLast?_cons_append _ _ _

/-- Witness for C2 (amended) at a concrete non-empty user message. -/
theorem c2_persona_first_user_last_witness :
    ("hi" : String) ≠ "" ∧
    ((buildContext envA none "hi").1.head? =
      some { role := Role.system, content := "p" } ∧
    (buildContext envA none "hi").1.getLast? =
      some { role := Role.user, content := "hi" }) :=
  ⟨by decide, c2_persona_first_user_last envA none "hi" (by decide)⟩

/-- Claim C3: with a wired history collaborator the assembled prompt is
bounded by the fixed segments plus ten history segments plus the current
turn (it never exceeds 14 segments); only the last ten stored messages
matter, however long the conversation; each included history segment comes
from one of those last ten messages with that message's own role, any
message whose role is neither `user` nor `assistant` being skipped; and at
most ten history segments are produced. -/
theorem c3_history_window (env : BuildContextEnv) (pc : Option PageContext)
    (um : String) (msgs old : List StoredMessage) :
    (buildContext { env with history := some msgs } pc um).1.length ≤ 14 ∧
    (msgs.length = 10 →
      buildContext { env with history := some (old ++ msgs) } pc um =
        buildContext { env with history := some msgs } pc um) ∧
    (∀ c ∈ historySegs msgs, ∃ m ∈ getRecentMessages msgs 10,
      (m.role = "user" ∧ c = { role := Role.user, content := m.content }) ∨
      (m.role = "assistant" ∧
        c = { role := Role.assistant, content := m.content })) ∧
    (historySegs msgs).length ≤ 10 := by
  have h10 : ∀ ms : List StoredMessage, (getRecentMessages ms 10).length ≤ 10 := by
    intro ms
    have hms : getRecentMessages ms 10 = ms.drop (ms.length - 10) := by
      simp [getRecentMessages]
    rw [hms, List.length_drop]
    omega
  have hh : (historySegs msgs).length ≤ 10 :=
    le_trans (List.length_filterMap_le _ _) (h10 msgs)
  refine ⟨?_, ?_, ?_, hh⟩
  · have hpc : (pageContextSegs pc).length ≤ 1 := by
      cases pc with
      | none => simp [pageContextSegs]
      | some p =>
        simp only [pageContextSegs]
        split <;> simp
    have hrag : ((ragSegsAndSources { env with history := some msgs } um).1).length ≤ 1 := by
      unfold ragSegsAndSources
      split
      · split
        · split <;> simp
        · simp
      · simp
    have huser : (userSegsOf um).length ≤ 1 := by
      unfold userSegsOf
      split <;> simp
    simp only [buildContext, historyOf, List.length_cons, List.length_append]
    omega
  · intro hm
    have hwin : getRecentMessages (old ++ msgs) 10 = getRecentMessages msgs 10 := by
      simp [getRecentMessages, List.length_append, hm, List.drop_left]
    have hhist : historyOf (some (old ++ msgs)) = historyOf (some msgs) := by
      simp [historyOf, historySegs, hwin]
    have hragEq : ragSegsAndSources { env with history := some (old ++ msgs) } um =
        ragSegsAndSources { env with history := some msgs } um := rfl
    simp [buildContext, hhist, hragEq]
  · intro c hc
    rcases List.mem_filterMap.mp hc with ⟨m, hm, hseg⟩
    refine ⟨m, hm, ?_⟩
    by_cases h1 : m.role = "user"
    · left
      refine ⟨h1, ?_⟩
      simp only [roleSegment, h1, if_pos] at hseg
      simp at hseg
      exact hseg.symm
    · by_cases h2 : m.role = "assistant"
      · right
        refine ⟨h2, ?_⟩
        simp only [roleSegment, h1, h2] at hseg
        simp at hseg
        exact hseg.symm
      · simp [roleSegment, h1, h2] at hseg

/-- A ten-message conversation window holding one malformed role. -/
def msgsW : List StoredMessage :=
  [{ role := "user", content := "m1" }, { role := "assistant", content := "m2" },
   { role := "user", content := "m3" }, { role := "assistant", content := "m4" },
   { role := "user", content := "m5" }, { role := "assistant", content := "m6" },
   { role := "user", content := "m7" }, { role := "assistant", content := "m8" },
   { role := "tool", content := "m9" }, { role := "user", content := "m10" }]

/-- Two additional older messages prepended to the conversation. -/
def oldW : List StoredMessage :=
  [{ role := "user", content := "old1" }, { role := "assistant", content := "old2" }]

/-- Witness for C3 at a concrete twelve-message conversation. -/
theorem c3_history_window_witness :
    (buildContext { envA with history := some msgsW } none "hi").1.length ≤ 14 ∧
    buildContext { envA with history := some (oldW ++ msgsW) } none "hi" =
      buildContext { envA with history := some msgsW } none "hi" ∧
    ∃ m ∈ getRecentMessages msgsW 10,
      (m.role = "user" ∧
        ({ role := Role.user, content := "m1" } : ChatMessage) =
          { role := Role.user, content := m.content }) ∨
      (m.role = "assistant" ∧
        ({ role := Role.user, content := "m1" } : ChatMessage) =
          { role := Role.assistant, content := m.content }) :=
  ⟨(c3_history_window envA none "hi" msgsW oldW).1,
   (c3_history_window envA none "hi" msgsW oldW).2.1 (by decide),
   (c3_history_window envA none "hi" msgsW oldW).2.2.1
     { role := Role.user, content := "m1" } (by decide)⟩

/-- The structured error path of the stream route: the headers were never
flushed, a structured 500 JSON response was returned, and no stream record
was ever written. -/
def structuredErrorPath (r : RouteResult) : Prop :=
  r.headersSent = false ∧ r.jsonStatus = some 500 ∧ r.records = []

/-- The in-stream error path of the stream route: the headers were flushed,
exactly one error record was written, it is the final record, and the
channel was closed. -/
def streamErrorPath (r : RouteResult) : Prop :=
  r.headersSent = true ∧ r.ended = true ∧
  r.records.countP isErrorRec = 1 ∧
  ∃ m, r.records.getLast? = some (WireRecord.error m)

/-- Whether the given run raises an error during processing: one of the two
storage reads throws (the second is only reached when the message lookup
succeeds), or validation passes and the configured backend fails, making
the adapter throw mid-stream. -/
def errorRaised (fault : RouteFault) (ml : Option MessageRecord)
    (allM : List StoredMessage) (cfg : Bool) (backend : BackendOutcome) : Bool :=
  match fault with
  | RouteFault.getMessageThrows => true
  | RouteFault.getRecentThrows => ml.isSome
  | RouteFault.noFault =>
    ml.isSome &&
    ((getRecentMessages allM 10).reverse.find? (fun m => m.role == "user")).isSome &&
    cfg &&
    (match backend with
     | BackendOutcome.failure _ _ => true
     | _ => false)

/-- Chunk records are never error records. -/
theorem countP_isErrorRec_chunks (cs : List String) :
    (cs.map WireRecord.chunk).countP isErrorRec = 0 := by
  rw [List.countP_map]
  exact List.countP_eq_zero.mpr (by simp [Function.comp, isErrorRec])

/-- Claim C4: whenever an error is raised during the stream endpoint's
processing, exactly one of the two error paths executes: a structured
non-streamed 500 response with no record written when the headers were not
yet sent, or exactly one final error record followed by channel closure
when they were — never both and never neither. -/
theorem c4_exactly_one_error_path (fault : RouteFault)
    (ml : Option MessageRecord) (allM : List StoredMessage) (cfg : Bool)
    (env : BuildContextEnv) (pc : Option PageContext)
    (backend : BackendOutcome)
    (h : errorRaised fault ml allM cfg backend = true) :
    (structuredErrorPath (handleStream fault ml allM cfg env pc backend) ∧
      ¬ streamErrorPath (handleStream fault ml allM cfg env pc backend)) ∨
    (streamErrorPath (handleStream fault ml allM cfg env pc backend) ∧
      ¬ structuredErrorPath (handleStream fault ml allM cfg env pc backend)) := by
  cases fault with
  | getMessageThrows =>
    left
    simp [handleStream, rejected, structuredErrorPath, streamErrorPath]
  | getRecentThrows =>
    cases ml with
    | none => simp [errorRaised] at h
    | some m =>
      left
      simp +decide [handleStream, rejected, structuredErrorPath, streamErrorPath]
  | noFault =>
    cases ml with
    | none => simp [errorRaised] at h
    | some m =>
      cases hf : (getRecentMessages allM 10).reverse.find?
          (fun x => x.role == "user") with
      | none => simp [errorRaised, hf] at h
      | some lastUser =>
        cases backend with
        | success frags => simp [errorRaised] at h
        | failure pre err =>
          cases cfg with
          | false => simp [errorRaised] at h
          | true =>
            right
            have hrun : handleStream RouteFault.noFault (some m) allM true env pc
                (BackendOutcome.failure pre err) =
                streamingResult (streamChatCompletion true env pc
                  lastUser.content (BackendOutcome.failure pre err)) := by
              simp +decide [handleStream, hf]
            rw [hrun]
            have hrec : (streamingResult (streamChatCompletion true env pc
                lastUser.content (BackendOutcome.failure pre err))).records =
                (pre.filter (fun f => f != "")).map WireRecord.chunk ++
                  [WireRecord.error (normalizeError err)] := by
              simp [streamingResult, streamChatCompletion, List.map_map, encodeYield]
            constructor
            · refine ⟨rfl, rfl, ?_, ?_⟩
              · rw [hrec, List.countP_append, countP_isErrorRec_chunks]
                rfl
              · exact ⟨normalizeError err, by rw [hrec, List.getLast?_concat]⟩
            · intro hcontra
              exact absurd hcontra.1 (by simp [streamingResult, streamChatCompletion])

/-- Witness for C4 at a concrete run whose message lookup throws. -/
theorem c4_exactly_one_error_path_witness :
    errorRaised RouteFault.getMessageThrows (some msgW) oneUserTurn false
      (BackendOutcome.success []) = true ∧
    ((structuredErrorPath (handleStream RouteFault.getMessageThrows (some msgW)
        oneUserTurn false envA none (BackendOutcome.success [])) ∧
      ¬ streamErrorPath (handleStream RouteFault.getMessageThrows (some msgW)
        oneUserTurn false envA none (BackendOutcome.success []))) ∨
    (streamErrorPath (handleStream RouteFault.getMessageThrows (some msgW)
        oneUserTurn false envA none (BackendOutcome.success [])) ∧
      ¬ structuredErrorPath (handleStream RouteFault.getMessageThrows (some msgW)
        oneUserTurn false envA none (BackendOutcome.success [])))) :=
  ⟨rfl, c4_exactly_one_error_path RouteFault.getMessageThrows (some msgW)
    oneUserTurn false envA none (BackendOutcome.success []) rfl⟩

/-- The five fixed messages of the error taxonomy: rate-limited,
unauthenticated, backend-unavailable, quota-exceeded, timeout.  The sixth,
catch-all kind wraps the raw message in a fixed template (spec section 7:
the raw message appears only when no more specific kind applies). -/
def fixedTaxonomyMessages : List String :=
  ["I\x27m receiving too many requests right now. Please wait a moment and try again.",
   "API authentication failed. Please contact your administrator.",
   "The AI service is temporarily unavailable. Please try again in a few moments.",
   "API usage limit reached. Please contact your administrator.",
   "Request timed out. Please check your connection and try again."]

/-- Claim C5: for EVERY backend failure during streaming (any status, code
and raw message), the adapter fails the sequence with exactly one
normalized message and the route writes the chunk records produced before
the failure, then exactly one error record carrying that message, closes
the channel, and writes no done record.  The message always lies in the
closed taxonomy (one of the five fixed messages, or the fixed catch-all
template wrapping the raw text — never the bare backend exception), and it
is selected by inspecting the backend-reported status/code exactly as the
catch chain does: 429, then 401, then any status of at least 500, then the
quota code, then the timeout codes, else the catch-all; in particular a
401 failure maps to the unauthenticated message (Scenario E). -/
theorem c5_backend_failure_normalized (msgRec : MessageRecord)
    (allM : List StoredMessage) (env : BuildContextEnv)
    (pc : Option PageContext) (pre : List String) (err : BackendError)
    (hFind : ((getRecentMessages allM 10).reverse.find?
      (fun m => m.role == "user")).isSome = true) :
    handleStream RouteFault.noFault (some msgRec) allM true env pc
      (BackendOutcome.failure pre err) =
      { jsonStatus := none, headersSent := true,
        records := (pre.filter (fun f => f != "")).map WireRecord.chunk ++
          [WireRecord.error (normalizeError err)],
        ended := true } ∧
    WireRecord.done ∉ (handleStream RouteFault.noFault (some msgRec) allM true
      env pc (BackendOutcome.failure pre err)).records ∧
    (normalizeError err =
        "Unable to process your request: " ++
          (truthyStr err.message).getD "Unknown error" ++ ". Please try again." ∨
      normalizeError err ∈ fixedTaxonomyMessages) ∧
    (err.status = some 429 → normalizeError err =
      "I\x27m receiving too many requests right now. Please wait a moment and try again.") ∧
    (err.status = some 401 → normalizeError err =
      "API authentication failed. Please contact your administrator.") ∧
    (∀ s : Int, err.status = some s → 500 ≤ s → normalizeError err =
      "The AI service is temporarily unavailable. Please try again in a few moments.") ∧
    (err.status ≠ some 429 → err.status ≠ some 401 →
      (∀ s : Int, err.status = some s → s < 500) →
      err.code = some "insufficient_quota" → normalizeError err =
        "API usage limit reached. Please contact your administrator.") ∧
    (err.status ≠ some 429 → err.status ≠ some 401 →
      (∀ s : Int, err.status = some s → s < 500) →
      (err.code = some "ETIMEDOUT" ∨ err.code = some "ECONNABORTED") →
      normalizeError err =
        "Request timed out. Please check your connection and try again.") ∧
    (err.status ≠ some 429 → err.status ≠ some 401 →
      (∀ s : Int, err.status = some s → s < 500) →
      err.code ≠ some "insufficient_quota" → err.code ≠ some "ETIMEDOUT" →
      err.code ≠ some "ECONNABORTED" →
      normalizeError err =
        "Unable to process your request: " ++
          (truthyStr err.message).getD "Unknown error" ++ ". Please try again.") := by
  rcases Option.isSome_iff_exists.mp hFind with ⟨lastUser, hf⟩
  have hrun : handleStream RouteFault.noFault (some msgRec) allM true env pc
      (BackendOutcome.failure pre err) =
      streamingResult (streamChatCompletion true env pc lastUser.content
        (BackendOutcome.failure pre err)) := by
    simp +decide [handleStream, hf]
  refine ⟨?_, ?_, ?_, ?_, ?_, ?_, ?_, ?_, ?_⟩
  · rw [hrun]
    simp [streamingResult, streamChatCompletion, List.map_map, encodeYield]
  · rw [hrun]
    simp [streamingResult, streamChatCompletion, List.map_map, encodeYield]
  · unfold normalizeError
    split
    · right; decide
    · split
      · right; decide
      · split
        · right; decide
        · split
          · right; decide
          · split
            · right; decide
            · left; rfl
  · intro h
    simp +decide [normalizeError, h]
  · intro h
    simp +decide [normalizeError, h]
  · intro s hs hge
    have h1 : s ≠ 429 := by omega
    have h2 : s ≠ 401 := by omega
    simp [normalizeError, hs, beq_iff_eq, h1, h2, hge]
  · intro h429 h401 hlt hq
    cases hstat : err.status with
    | none => simp +decide [normalizeError, hstat, hq, beq_iff_eq]
    | some s =>
      have hs5 : s < 500 := hlt s hstat
      have h1 : s ≠ 429 := fun h => h429 (by rw [hstat, h])
      have h2 : s ≠ 401 := fun h => h401 (by rw [hstat, h])
      have h3 : ¬ (500 ≤ s) := by omega
      simp +decide [normalizeError, hstat, hq, beq_iff_eq, h1, h2, h3]
  · intro h429 h401 hlt hcode
    have hq : err.code ≠ some "insufficient_quota" := by
      rcases hcode with hc | hc <;> simp [hc]
    have hcbeq : (err.code == some "ETIMEDOUT"
        || err.code == some "ECONNABORTED") = true := by
      rcases hcode with hc | hc <;> simp [hc]
    cases hstat : err.status with
    | none => simp +decide [normalizeError, hstat, hq, hcbeq, beq_iff_eq]
    | some s =>
      have hs5 : s < 500 := hlt s hstat
      have h1 : s ≠ 429 := fun h => h429 (by rw [hstat, h])
      have h2 : s ≠ 401 := fun h => h401 (by rw [hstat, h])
      have h3 : ¬ (500 ≤ s) := by omega
      simp +decide [normalizeError, hstat, hq, hcbeq, beq_iff_eq, h1, h2, h3]
  · intro h429 h401 hlt hq ht1 ht2
    cases hstat : err.status with
    | none => simp +decide [normalizeError, hstat, hq, ht1, ht2, beq_iff_eq]
    | some s =>
      have hs5 : s < 500 := hlt s hstat
      have h1 : s ≠ 429 := fun h => h429 (by rw [hstat, h])
      have h2 : s ≠ 401 := fun h => h401 (by rw [hstat, h])
      have h3 : ¬ (500 ≤ s) := by omega
      simp +decide [normalizeError, hstat, hq, ht1, ht2, beq_iff_eq, h1, h2, h3]

/-- A backend error carrying an authentication-style status. -/
def errAuth : BackendError := { status := some 401 }

/-- Witness for C5: a concrete failing run (Scenario E), one fragment
produced before the failure; the 401 selection conjunct is exercised. -/
theorem c5_backend_failure_normalized_witness :
    ((getRecentMessages oneUserTurn 10).reverse.find?
      (fun m => m.role == "user")).isSome = true ∧
    errAuth.status = some 401 ∧
    handleStream RouteFault.noFault (some msgW) oneUserTurn true envA none
      (BackendOutcome.failure ["Hel"] errAuth) =
      { jsonStatus := none, headersSent := true,
        records := (["Hel"].filter (fun f => f != "")).map WireRecord.chunk ++
          [WireRecord.error (normalizeError errAuth)],
        ended := true } ∧
    WireRecord.done ∉ (handleStream RouteFault.noFault (some msgW) oneUserTurn
      true envA none (BackendOutcome.failure ["Hel"] errAuth)).records ∧
    normalizeError errAuth =
      "API authentication failed. Please contact your administrator." :=
  ⟨by decide, rfl,
   (c5_backend_failure_normalized msgW oneUserTurn envA none ["Hel"] errAuth
     (by decide)).1,
   (c5_backend_failure_normalized msgW oneUserTurn envA none ["Hel"] errAuth
     (by decide)).2.1,
   (c5_backend_failure_normalized msgW oneUserTurn envA none ["Hel"] errAuth
     (by decide)).2.2.2.2.1 rfl⟩

/-- Counterexample for C6 as stated: a page context holding only the key
`timestamp` is non-empty, so a segment is emitted, yet no line renders the
key — the generic `key: JSON(value)` rendering skips `timestamp`. -/
theorem c6_counterexample :
    PageContext.isEmpty { timestamp := some "2024-01-01" } = false ∧
    pageContextLines { timestamp := some "2024-01-01" } = [] ∧
    getPageContextPrompt { timestamp := some "2024-01-01" } =
      "Current Context:\n\nBased on this context, provide relevant and specific assistance." := by
  refine ⟨rfl, rfl, ?_⟩
  rfl

/-- Claim C6 (amended): for every non-empty page context, context assembly
emits one additional system segment (the second prompt element) rendering
the recognized keys with fixed labels, and every other key except
`timestamp` is rendered generically as a `key: JSON(value)` line; the
`timestamp` key is dropped without being rendered; an absent or empty page
context yields no such segment. -/
theorem c6_page_context_rendering (env : BuildContextEnv) (um : String)
    (pc : PageContext) (k v : String) (t : Option String) :
    (pc.isEmpty = false →
      (buildContext env (some pc) um).1.get? 1 =
        some { role := Role.system, content := getPageContextPrompt pc }) ∧
    (pc.isEmpty = true →
      buildContext env (some pc) um = buildContext env none um) ∧
    ((k, v) ∈ pc.extras → recognizedKeys.contains k = false →
      ("- " ++ k ++ ": " ++ v ++ "\n") ∈ pageContextLines pc) ∧
    pageContextLines { pc with timestamp := t } = pageContextLines pc ∧
    getPageContextPrompt { pc with timestamp := t } = getPageContextPrompt pc := by
  refine ⟨?_, ?_, ?_, rfl, rfl⟩
  · intro h
    simp [buildContext, pageContextSegs, h]
  · intro h
    simp [buildContext, pageContextSegs, h]
  · intro hkv hk
    unfold pageContextLines
    refine List.mem_append.mpr (Or.inr ?_)
    refine List.mem_map.mpr ⟨(k, v), List.mem_filter.mpr ⟨hkv, ?_⟩, rfl⟩
    show (!(recognizedKeys.contains k)) = true
    rw [hk]
    rfl

/-- A page context with one recognized key and one custom key. -/
def pcW : PageContext :=
  { userRole := some "admin", extras := [("foo", "1")] }

/-- Witness for C6 (amended) at a concrete page context. -/
theorem c6_page_context_rendering_witness :
    (buildContext envA (some pcW) "hi").1.get? 1 =
      some { role := Role.system, content := getPageContextPrompt pcW } ∧
    ("- " ++ "foo" ++ ": " ++ "1" ++ "\n") ∈ pageContextLines pcW :=
  ⟨(c6_page_context_rendering envA "hi" pcW "foo" "1" none).1 rfl,
   (c6_page_context_rendering envA "hi" pcW "foo" "1" none).2.2.1
     (by decide) (by decide)⟩

/-- Claim C7: a retrieval collaborator that throws is swallowed and treated
exactly like one returning an empty result set — the assembled prompt and
the citation list are identical in the two runs, and no error reaches the
caller. -/
theorem c7_retrieval_throw_eq_empty (env : BuildContextEnv)
    (pc : Option PageContext) (um : String) :
    buildContext { env with ragResult := Except.error () } pc um =
      buildContext { env with ragResult := Except.ok [] } pc um := by
  have hseg : ragSegsAndSources { env with ragResult := Except.error () } um =
      ragSegsAndSources { env with ragResult := Except.ok [] } um := by
    simp only [ragSegsAndSources]
    split
    · simp
    · rfl
  simp [buildContext, hseg]

/-- Content strings pass through the yield embedding unchanged. -/
theorem filterMap_contentOf_map_content (cs : List String) :
    (cs.map StreamYield.content).filterMap contentOf = cs := by
  induction cs with
  | nil => rfl
  | cons c cs ih => simp [contentOf, ih]

/-- An optional trailing sources yield contributes no content string. -/
theorem filterMap_contentOf_sourcesOpt (s : List Citation) (c : Prop)
    [Decidable c] :
    (if c then [StreamYield.sources s] else []).filterMap contentOf = [] := by
  split <;> rfl

/-- Claim C9: in configured mode, when the backend stream completes, the
content chunks yielded are exactly the non-empty fragments, except that a
stream with no non-empty fragment yields exactly the one fixed fallback
apology chunk; the content sequence is never empty, and a completing
backend stream never makes the adapter throw. -/
theorem c9_empty_stream_fallback (env : BuildContextEnv)
    (pc : Option PageContext) (um : String) (frags : List String) :
    contentTexts (streamChatCompletion true env pc um
      (BackendOutcome.success frags)) =
      (if (frags.filter (fun f => f != "")).isEmpty then [fallbackMessage]
       else frags.filter (fun f => f != "")) ∧
    contentTexts (streamChatCompletion true env pc um
      (BackendOutcome.success frags)) ≠ [] ∧
    (streamChatCompletion true env pc um
      (BackendOutcome.success frags)).thrown = none := by
  have h1 : contentTexts (streamChatCompletion true env pc um
      (BackendOutcome.success frags)) =
      (if (frags.filter (fun f => f != "")).isEmpty then [fallbackMessage]
       else frags.filter (fun f => f != "")) := by
    show List.filterMap contentOf
      ((if (frags.filter (fun f => f != "")).isEmpty then [fallbackMessage]
        else frags.filter (fun f => f != "")).map StreamYield.content ++
       (if 0 < (buildContext env pc um).2.length then
         [StreamYield.sources (buildContext env pc um).2] else [])) = _
    rw [List.filterMap_append, filterMap_contentOf_map_content,
      filterMap_contentOf_sourcesOpt, List.append_nil]
  refine ⟨h1, ?_, rfl⟩
  rw [h1]
  split
  · simp
  · rename_i hne
    intro heq
    exact hne (by simp [heq])

/-- Claim C10: in unconfigured (demo) mode the adapter's run is one fixed
constant — independent of the configuration, page context, user message,
stored history and backend behaviour — namely the mock fragment sequence,
and it never yields a sources event. -/
theorem c10_mock_constant (env1 : BuildContextEnv) (pc1 : Option PageContext)
    (um1 : String) (b1 : BackendOutcome) (env2 : BuildContextEnv)
    (pc2 : Option PageContext) (um2 : String) (b2 : BackendOutcome) :
    streamChatCompletion false env1 pc1 um1 b1 =
      streamChatCompletion false env2 pc2 um2 b2 ∧
    (streamChatCompletion false env1 pc1 um1 b1).yields =
      mockResponses.map StreamYield.content ∧
    hasSourcesYield (streamChatCompletion false env1 pc1 um1 b1) = false :=
  ⟨rfl, rfl, rfl⟩

/-- Counterexample for C8 as stated: at a concrete run in which the client
disconnects after receiving two records, the handler still holds all nine
records of the full run and attempts the remaining writes on the closed
channel — it neither stops pulling nor stops writing. -/
theorem c8_counterexample :
    (handleStreamDisconnect 2 RouteFault.noFault (some msgW) oneUserTurn false
      envA none (BackendOutcome.success [])).records.length = 9 ∧
    writesAfterDisconnect 2 (handleStreamDisconnect 2 RouteFault.noFault
      (some msgW) oneUserTurn false envA none
      (BackendOutcome.success [])) ≠ [] := by
  refine ⟨rfl, ?_⟩
  decide

/-- Claim C8 (amended): the route installs no disconnect listener, so its
run is identical for every disconnect instant, and whenever the client
disconnects before the final record the handler still attempts at least one
further write on the closed channel. -/
theorem c8_no_cancellation (k kk : Nat) (fault : RouteFault)
    (ml : Option MessageRecord) (allM : List StoredMessage) (cfg : Bool)
    (env : BuildContextEnv) (pc : Option PageContext)
    (backend : BackendOutcome) :
    handleStreamDisconnect k fault ml allM cfg env pc backend =
      handleStreamDisconnect kk fault ml allM cfg env pc backend ∧
    (k < (handleStreamDisconnect k fault ml allM cfg env pc
        backend).records.length →
      writesAfterDisconnect k (handleStreamDisconnect k fault ml allM cfg env
        pc backend) ≠ []) := by
  refine ⟨rfl, ?_⟩
  intro hk hcontra
  unfold writesAfterDisconnect at hcontra
  have hlen := congrArg List.length hcontra
  rw [List.length_drop] at hlen
  simp at hlen
  omega

/-- Witness for C8 (amended): a concrete disconnect after two of nine
records. -/
theorem c8_no_cancellation_witness :
    2 < (handleStreamDisconnect 2 RouteFault.noFault (some msgW) oneUserTurn
      false envA none (BackendOutcome.success [])).records.length ∧
    handleStreamDisconnect 2 RouteFault.noFault (some msgW) oneUserTurn false
      envA none (BackendOutcome.success []) =
      handleStreamDisconnect 7 RouteFault.noFault (some msgW) oneUserTurn
        false envA none (BackendOutcome.success []) ∧
    writesAfterDisconnect 2 (handleStreamDisconnect 2 RouteFault.noFault
      (some msgW) oneUserTurn false envA none
      (BackendOutcome.success [])) ≠ [] :=
  ⟨by decide,
   (c8_no_cancellation 2 7 RouteFault.noFault (some msgW) oneUserTurn false
     envA none (BackendOutcome.success [])).1,
   (c8_no_cancellation 2 7 RouteFault.noFault (some msgW) oneUserTurn false
     envA none (BackendOutcome.success [])).2 (by decide)⟩

end AIChat
